import Mathlib

/-!
Verification of the CodeFit extension core: health scoring, streaks,
leveling/achievements, the exercise sequencer, the reminder policy and
the activity log. Each definition is a shallow embedding of the
corresponding TypeScript function; timestamps are milliseconds since the
epoch (`Int`), durations of activities are seconds (`Nat`), and
fractional minute arithmetic is done in `ℚ` exactly as the source does
with JavaScript numbers.
-/

namespace CodeFit

/-- One recorded activity (`Activity` in `src/types`), restricted to the
fields the core logic reads. -/
structure Activity where
  id : String
  exerciseId : String
  exerciseName : String
  duration : Nat
  caloriesBurned : Nat
  pointsEarned : Nat
  startedAt : Int
  completedAt : Int
  createdAt : Int
deriving DecidableEq, Repr

/-- Insert by `completedAt`, ascending (helper for the sort in
`calculateLongestSittingStreak`). -/
def insertByCompleted (a : Activity) : List Activity → List Activity
  | [] => [a]
  | b :: bs =>
      if a.completedAt ≤ b.completedAt then a :: b :: bs
      else b :: insertByCompleted a bs

/-- Source function `activities.sort((a, b) => a.completedAt - b.completedAt)`. -/
def sortByCompleted : List Activity → List Activity
  | [] => []
  | a :: as => insertByCompleted a (sortByCompleted as)

/-- The loop of `calculateLongestSittingStreak`: walks the sorted
activities keeping the longest gap (in minutes, exact rationals for the
millisecond divisions) and the last activity's completion time; after the
list is exhausted it adds the gap from the last activity to `now`. -/
def sittingScan (now : Int) : List Activity → ℚ → Int → ℚ
  | [], longestStreak, lastActivityTime =>
      max longestStreak (((now - lastActivityTime : ℤ) : ℚ) / 60000)
  | a :: rest, longestStreak, lastActivityTime =>
      let gapMinutes : ℚ := ((a.startedAt - lastActivityTime : ℤ) : ℚ) / 60000
      sittingScan now rest (max longestStreak gapMinutes) a.completedAt

/-- Source function `calculateLongestSittingStreak` (HealthTracker): 480 when there are
no activities, otherwise the rounded longest gap between consecutive
activities, including day-start → first activity and last activity → now. -/
def calculateLongestSittingStreak (activities : List Activity)
    (dayStart now : Int) : ℤ :=
  match activities with
  | [] => 480
  | _ => round (sittingScan now (sortByCompleted activities) 0 dayStart)

/-- The penalty part of `calculateHealthScore`: start at 100 and subtract
the four penalty bands (break ratio, sitting streak, exercise duration,
variety). -/
def healthPenaltiesScore (today : List Activity) (dayStart now : Int) : ℤ :=
  let totalDuration : Nat := (today.map (·.duration)).sum
  let codingTime : Nat := 480
  let breaksRecommended : Nat := codingTime / 60
  let breaksTaken : Nat := today.length
  let exerciseDuration : Nat := totalDuration / 60
  let longestSittingStreak : ℤ := calculateLongestSittingStreak today dayStart now
  let breakRatio : ℚ :=
    if breaksRecommended > 0 then (breaksTaken : ℚ) / (breaksRecommended : ℚ) else 0
  let s1 : ℤ :=
    if breakRatio < 1/2 then 100 - 40
    else if breakRatio < 7/10 then 100 - 20
    else if breakRatio < 9/10 then 100 - 10
    else 100
  let s2 : ℤ :=
    if longestSittingStreak > 120 then s1 - 30
    else if longestSittingStreak > 90 then s1 - 20
    else if longestSittingStreak > 60 then s1 - 10
    else s1
  let s3 : ℤ :=
    if exerciseDuration < 10 then s2 - 15
    else if exerciseDuration < 20 then s2 - 8
    else s2
  let uniqueExercises : Nat := (today.map (·.exerciseId)).dedup.length
  if uniqueExercises < 2 then s3 - 15
  else if uniqueExercises < 3 then s3 - 8
  else s3

/-- Source function `calculateHealthScore` (HealthTracker): the penalty score clamped to
[0, 100] (`Math.max(0, Math.min(100, Math.round(score)))`; the running
score is integral so the rounding is the identity). -/
def calculateHealthScore (today : List Activity) (dayStart now : Int) : ℤ :=
  max 0 (min 100 (healthPenaltiesScore today dayStart now))

/-- Source function `saveActivity` (HealthTracker): append, then keep only the last 1000
entries (`splice(0, length - 1000)` when the length exceeds 1000). -/
def saveActivity (activities : List Activity) (activity : Activity) :
    List Activity :=
  let pushed := activities ++ [activity]
  if pushed.length > 1000 then pushed.drop (pushed.length - 1000) else pushed

/-- The streak fields of `UserStats` that `updateStreak` touches. -/
structure StreakState where
  streak : Nat
  longestStreak : Nat
deriving DecidableEq, Repr

/-- Source function `updateStreak` (HealthTracker), with the two booleans
`hasActivityToday` / `hasActivityYesterday` (derived in the source from
calendar-day matches on `createdAt`) taken as inputs. -/
def updateStreak (hasActivityToday hasActivityYesterday : Bool)
    (s : StreakState) : StreakState :=
  if hasActivityToday then
    let streak' :=
      if hasActivityYesterday || decide (s.streak = 0) then s.streak + 1
      else s.streak
    { streak := streak',
      longestStreak :=
        if streak' > s.longestStreak then streak' else s.longestStreak }
  else if !hasActivityYesterday && decide (s.streak > 0) then
    { s with streak := 0 }
  else s

/-! ## Leveling, achievements and the daily quest (GamificationService) -/

/-- Exercise duration categories (`Exercise['category']`). -/
inductive Category
  | cat1min
  | cat3min
  | cat5min
  | targeted
deriving DecidableEq, Repr

/-- One step of an exercise. -/
structure ExerciseStep where
  instruction : String
  duration : Nat
deriving DecidableEq, Repr

/-- A static catalog exercise, restricted to the fields the core reads. -/
structure Exercise where
  id : String
  name : String
  category : Category
  duration : Nat
  steps : List ExerciseStep
  caloriesBurn : Nat
deriving DecidableEq, Repr

/-- The single mutable `UserStats` aggregate. -/
structure UserStats where
  healthScore : Int
  streak : Nat
  longestStreak : Nat
  totalExercises : Nat
  totalExerciseTime : Nat
  totalPoints : Nat
  availablePoints : Nat
  level : Nat
  xp : Nat
deriving DecidableEq, Repr

/-- One row of the `LEVELS` table. -/
structure LevelData where
  level : Nat
  name : String
  xpRequired : Nat
  icon : String
deriving DecidableEq, Repr

/-- The `LEVELS` constant (`src/constants/achievements`). -/
def LEVELS : List LevelData :=
  [ { level := 1, name := "Code Newbie", xpRequired := 0, icon := "🌱" },
    { level := 2, name := "Alert Coder", xpRequired := 100, icon := "⚡" },
    { level := 3, name := "Stretch Master", xpRequired := 250, icon := "🧘" },
    { level := 5, name := "Healthy Coder", xpRequired := 500, icon := "💪" },
    { level := 10, name := "Wellness Warrior", xpRequired := 1500, icon := "⚔️" },
    { level := 15, name := "Balance Champion", xpRequired := 3000, icon := "⚖️" },
    { level := 20, name := "Zen Master", xpRequired := 5000, icon := "🧘‍♂️" },
    { level := 30, name := "Health Guru", xpRequired := 10000, icon := "🌟" },
    { level := 50, name := "Immortal Developer", xpRequired := 25000, icon := "👑" } ]

/-- Source function `findCurrentLevel` (GamificationService): scan `LEVELS` from the end
and return the first (hence highest) level whose `xpRequired` is at most
`xp`; default to level 1. -/
def findCurrentLevel (xp : Nat) : Nat :=
  match LEVELS.reverse.find? (fun l => xp ≥ l.xpRequired) with
  | some l => l.level
  | none => 1

/-- Source function `checkAndHandleLevelUp`: recompute the level from XP and raise the
stored level if the recomputed one is higher; report whether it rose. -/
def checkAndHandleLevelUp (s : UserStats) : UserStats × Bool :=
  let currentLevel := findCurrentLevel s.xp
  if currentLevel > s.level then ({ s with level := currentLevel }, true)
  else (s, false)

/-- Source function `calculateExerciseXP`: base XP by duration category (the source's
`|| 10` default is unreachable for the four declared categories). -/
def calculateExerciseXP (exercise : Exercise) : Nat :=
  match exercise.category with
  | .cat1min => 5
  | .cat3min => 15
  | .cat5min => 30
  | .targeted => 20

/-- Source function `calculateBonusXP`: +5 in the 06:00–08:00 hour window, plus 2 per
full 7-day streak block once the streak reaches 7. -/
def calculateBonusXP (hour : Nat) (s : UserStats) : Nat :=
  (if 6 ≤ hour ∧ hour < 8 then 5 else 0) +
    (if s.streak ≥ 7 then (s.streak / 7) * 2 else 0)

/-- Source function `calculateExercisePoints`: base points by category, multiplied by 1.1
and floored when gamification is enabled and the streak is at least 7
(`Math.floor(points * 1.1)`; on the five possible base values the exact
rational and the double agree, so `points * 11 / 10` in `Nat`). -/
def calculateExercisePoints (gamificationEnabled : Bool)
    (exercise : Exercise) (s : UserStats) : Nat :=
  let points :=
    match exercise.category with
    | .cat1min => 5
    | .cat3min => 15
    | .cat5min => 30
    | .targeted => 20
  if gamificationEnabled && decide (s.streak ≥ 7) then points * 11 / 10
  else points

/-- Achievement requirement shapes (`Achievement['requirement']`). -/
inductive AchRequirement
  | streakReq (days : Nat)
  | countReq (action : String) (count : Nat)
  | timeBased (time : String)
deriving DecidableEq, Repr

/-- A static achievement entry (id, requirement, XP reward). -/
structure Achievement where
  id : String
  requirement : AchRequirement
  rewardXp : Nat
deriving DecidableEq, Repr

/-- The `ACHIEVEMENTS` constant (`src/constants/achievements`). -/
def ACHIEVEMENTS : List Achievement :=
  [ { id := "streak_7", requirement := .streakReq 7, rewardXp := 100 },
    { id := "streak_30", requirement := .streakReq 30, rewardXp := 500 },
    { id := "streak_100", requirement := .streakReq 100, rewardXp := 2000 },
    { id := "breaks_100", requirement := .countReq "break" 100, rewardXp := 150 },
    { id := "exercises_500", requirement := .countReq "exercise" 500, rewardXp := 800 },
    { id := "morning_7", requirement := .timeBased "morning", rewardXp := 200 },
    { id := "night_owl", requirement := .timeBased "night", rewardXp := 300 } ]

/-- Source function `checkTimeBasedAchievement`: morning is 06:00–09:59, night is 22:00
onward or before 06:00. -/
def checkTimeBasedAchievement (hour : Nat) (time : String) : Bool :=
  if time = "morning" then decide (6 ≤ hour) && decide (hour < 10)
  else if time = "night" then decide (22 ≤ hour) || decide (hour < 6)
  else false

/-- Source function `checkAchievementRequirement` against the live stats and the current
hour. -/
def checkAchievementRequirement (s : UserStats) (hour : Nat)
    (req : AchRequirement) : Bool :=
  match req with
  | .streakReq days => decide (s.streak ≥ days)
  | .countReq action count =>
      if action = "break" ∨ action = "exercise" then
        decide (s.totalExercises ≥ count)
      else false
  | .timeBased time => checkTimeBasedAchievement hour time

/-- The loop of `checkAchievements`: walk the catalog in order, skip
already-unlocked entries, and on each newly satisfied requirement add the
id to the unlocked set, record the achievement, and apply its XP reward
immediately. -/
def checkAchievementsAux (hour : Nat) :
    List Achievement → UserStats → List String → List Achievement →
      UserStats × List String × List Achievement
  | [], s, unlocked, newOnes => (s, unlocked, newOnes)
  | a :: rest, s, unlocked, newOnes =>
      if unlocked.contains a.id then
        checkAchievementsAux hour rest s unlocked newOnes
      else if checkAchievementRequirement s hour a.requirement then
        checkAchievementsAux hour rest { s with xp := s.xp + a.rewardXp }
          (unlocked ++ [a.id]) (newOnes ++ [a])
      else checkAchievementsAux hour rest s unlocked newOnes

/-- Source function `checkAchievements` (GamificationService). -/
def checkAchievements (hour : Nat) (unlocked : List String)
    (s : UserStats) : UserStats × List String × List Achievement :=
  checkAchievementsAux hour ACHIEVEMENTS s unlocked []

/-- One task of the daily quest. -/
structure QuestTask where
  id : String
  description : String
  target : Nat
  current : Nat
  xp : Nat
  completed : Bool
deriving DecidableEq, Repr

/-- The daily quest (date handling is done by regeneration outside the
award path and is not needed here). -/
structure DailyQuest where
  id : String
  tasks : List QuestTask
  totalXP : Nat
  completed : Bool
deriving DecidableEq, Repr

/-- The per-task body of `updateDailyQuestProgress`: skip completed
tasks, bump the counter the exercise matches, and on reaching the target
mark the task complete and apply its XP. -/
def updateQuestTask (exercise : Exercise) (t : QuestTask)
    (s : UserStats) : QuestTask × UserStats :=
  if t.completed then (t, s)
  else
    let current' :=
      if t.id = "task_breaks" then t.current + 1
      else if t.id = "task_5min" ∧ exercise.category = .cat5min then
        t.current + 1
      else if t.id = "task_eyes" ∧ exercise.id = "eye_exercise" then
        t.current + 1
      else if t.id = "task_variety" then t.current + 1
      else t.current
    if current' ≥ t.target then
      ({ t with current := current', completed := true },
        { s with xp := s.xp + t.xp })
    else ({ t with current := current' }, s)

/-- The task loop of `updateDailyQuestProgress`. -/
def updateQuestTasks (exercise : Exercise) :
    List QuestTask → UserStats → List QuestTask × UserStats
  | [], s => ([], s)
  | t :: rest, s =>
      let first := updateQuestTask exercise t s
      let others := updateQuestTasks exercise rest first.2
      (first.1 :: others.1, others.2)

/-- Source function `updateDailyQuestProgress` (GamificationService): update every task,
then grant the one-time +50 bonus when all tasks have just become
complete. -/
def updateDailyQuestProgress (exercise : Exercise) (q : DailyQuest)
    (s : UserStats) : DailyQuest × UserStats :=
  let updated := updateQuestTasks exercise q.tasks s
  let allCompleted := updated.1.all (·.completed)
  if allCompleted && !q.completed then
    ({ q with tasks := updated.1, completed := true },
      { updated.2 with xp := updated.2.xp + 50 })
  else ({ q with tasks := updated.1 }, updated.2)

/-- The result record returned by `awardExerciseCompletion`. -/
structure AwardResult where
  xpEarned : Nat
  pointsEarned : Nat
  leveledUp : Bool
  newAchievements : List Achievement
deriving DecidableEq, Repr

/-- The state owned by the gamification service. -/
structure GamState where
  stats : UserStats
  unlockedAchievements : List String
  dailyQuest : DailyQuest
deriving DecidableEq, Repr

/-- Source function `awardExerciseCompletion` (GamificationService): add base+bonus XP
and points, run the level check, then the achievement check (whose XP
rewards land after the level check), then the daily-quest update. -/
def awardExerciseCompletion (gamificationEnabled : Bool) (hour : Nat)
    (exercise : Exercise) (g : GamState) : GamState × AwardResult :=
  let baseXP := calculateExerciseXP exercise
  let bonusXP := calculateBonusXP hour g.stats
  let totalXP := baseXP + bonusXP
  let points := calculateExercisePoints gamificationEnabled exercise g.stats
  let s1 : UserStats :=
    { g.stats with
        xp := g.stats.xp + totalXP,
        totalPoints := g.stats.totalPoints + points,
        availablePoints := g.stats.availablePoints + points }
  let afterLevel := checkAndHandleLevelUp s1
  let afterAch := checkAchievements hour g.unlockedAchievements afterLevel.1
  let afterQuest :=
    updateDailyQuestProgress exercise g.dailyQuest afterAch.1
  ({ stats := afterQuest.2, unlockedAchievements := afterAch.2.1,
     dailyQuest := afterQuest.1 },
    { xpEarned := totalXP, pointsEarned := points,
      leveledUp := afterLevel.2, newAchievements := afterAch.2.2 })

/-! ## Reminder policy (HealthReminderService) -/

/-- The rolling context handed to `shouldShowReminder`. -/
structure ReminderContext where
  codeInputFrequency : Nat
  lastCommitTime : Option Int
  isDebugging : Bool
  consecutiveWorkMinutes : Nat
  todayBreakCount : Nat
deriving DecidableEq, Repr

/-- The `codefit.reminder.frequency` setting: `"smart"` or a fixed
minute interval (the source parses the digits out of e.g. `"45min"`). -/
inductive Frequency
  | smart
  | fixedMinutes (minutes : Nat)
deriving DecidableEq, Repr

/-- Source function `shouldShowReminder`. The 50% draw `Math.random() > 0.5` is passed
in as `randAbove`; `nowMs` stands for `Date.now()`. -/
def shouldShowReminder (frequency : Frequency) (randAbove : Bool)
    (nowMs : Int) (ctx : ReminderContext) : Bool :=
  if ctx.isDebugging then false
  else if ctx.codeInputFrequency > 50 then false
  else
    match frequency with
    | .smart =>
        if ctx.consecutiveWorkMinutes ≥ 120 then true
        else if ctx.consecutiveWorkMinutes ≥ 90 then true
        else if ctx.consecutiveWorkMinutes ≥ 45 ∧ ctx.todayBreakCount < 8 then
          randAbove
        else
          match ctx.lastCommitTime with
          | some t =>
              let timeSinceCommit := nowMs - t
              decide (timeSinceCommit < 5 * 60 * 1000) &&
                decide (timeSinceCommit > 1 * 60 * 1000)
          | none => false
    | .fixedMinutes minutes => decide (ctx.consecutiveWorkMinutes ≥ minutes)

/-- Reminder severities. -/
inductive Severity
  | light
  | standard
  | strong
deriving DecidableEq, Repr

/-- The severity computed at the top of `showReminder`. -/
def reminderSeverity (consecutiveWorkMinutes : Nat) : Severity :=
  if consecutiveWorkMinutes ≥ 120 then .strong
  else if consecutiveWorkMinutes < 60 then .light
  else .standard

/-- Source function `getReminderMessage`: the severity-tagged message pools; the random
`Math.floor(Math.random() * pool.length)` index is passed in as `pick`
(reduced modulo the pool size). -/
def getReminderMessage (severity : Severity) (pick : Nat) : String :=
  let pool :=
    match severity with
    | .light =>
        [ "You've been coding for a while. Quick stretch?",
          "Time for a micro-break! Your body will thank you.",
          "Great progress! Take a 1-minute eye break?" ]
    | .standard =>
        [ "Time for a break! You've been coding for 90 minutes.",
          "Your health matters! Take a 3-minute exercise break.",
          "Keep your body as healthy as your code! Break time." ]
    | .strong =>
        [ "⚠️ Health Alert: You need a break NOW! 2+ hours of sitting.",
          "⚠️ Take a break immediately! Your health is at risk.",
          "⚠️ Mandatory break time! Get up and move!" ]
  pool.getD (pick % pool.length) ""

/-- Source function `isPaused()`: explicitly paused, or inside an active snooze window. -/
def isPausedCheck (paused : Bool) (snoozedUntil : Option Int)
    (nowMs : Int) : Bool :=
  paused ||
    match snoozedUntil with
    | some t => decide (nowMs < t)
    | none => false

/-- One parsed `"HH:MM-HH:MM"` Do-Not-Disturb range. -/
structure DndRange where
  startHour : Nat
  startMin : Nat
  endHour : Nat
  endMin : Nat
deriving DecidableEq, Repr

/-- Source function `isDoNotDisturbTime`: with DND enabled, true when the current
minute-of-day lies inclusively between a range's start and end
minutes-of-day. -/
def isDoNotDisturbTime (enabled : Bool) (ranges : List DndRange)
    (currentMinutes : Nat) : Bool :=
  if !enabled then false
  else
    ranges.any fun r =>
      let startMinutes := r.startHour * 60 + r.startMin
      let endMinutes := r.endHour * 60 + r.endMin
      decide (currentMinutes ≥ startMinutes) &&
        decide (currentMinutes ≤ endMinutes)

/-- Commit-message emotion tags. -/
inductive Emotion
  | celebration
  | frustration
  | milestone
  | normal
deriving DecidableEq, Repr

/-- Does `word` occur as a contiguous run inside `cs`? -/
def charsInclude (word : List Char) : List Char → Bool
  | [] => word.isPrefixOf []
  | c :: rest => word.isPrefixOf (c :: rest) || charsInclude word rest

/-- Source function `lower.includes(word)` on the underlying character lists. -/
def strIncludes (s word : String) : Bool :=
  charsInclude word.data s.data

/-- Source function `message.toLowerCase()`, character by character. -/
def strToLower (s : String) : String :=
  String.mk (s.data.map Char.toLower)

/-- Source function `detectCommitEmotion`: keyword matching on the lower-cased commit
message, celebration words first, then frustration, then milestone. -/
def detectCommitEmotion (message : String) : Emotion :=
  let lower := strToLower message
  let celebrationWords := ["finally", "done", "complete", "success", "yay", "🎉"]
  let frustrationWords := ["fix", "bug", "damn", "wtf", "issue"]
  let milestoneWords := ["release", "v1.0", "launch", "deploy", "merge"]
  if celebrationWords.any (strIncludes lower) then .celebration
  else if frustrationWords.any (strIncludes lower) then .frustration
  else if milestoneWords.any (strIncludes lower) then .milestone
  else .normal

/-- Source function `getPostCommitMessage`. -/
def getPostCommitMessage (emotion : Emotion) : String :=
  match emotion with
  | .celebration => "🎉 Awesome commit! Celebrate with a victory lap?"
  | .frustration => "😤 That was tough! Clear your head with a quick walk?"
  | .milestone => "🚀 Major milestone! You've earned a longer break!"
  | .normal => "Nice commit! Take a moment to stretch?"

/-- Source function `showPostCommitReminder`: the prompt it displays.  The source calls
`showInformationMessage` with this message unconditionally (no pause,
snooze, DND, debugging or input-intensity check on this path). -/
def showPostCommitReminderPrompt (commitMessage : String) : String :=
  getPostCommitMessage (detectCommitEmotion commitMessage)

/-- The suppression-relevant part of the reminder service state. -/
structure SuppressionState where
  paused : Bool
  snoozedUntil : Option Int
  dndEnabled : Bool
  dndRanges : List DndRange
deriving DecidableEq, Repr

/-- Source function `checkAndNotify` (the periodic tick): bail out when paused/snoozed
or in a DND window, otherwise bump the consecutive-work counter and show
a reminder when `shouldShowReminder` fires.  Returns the prompt shown
(if any) and the updated context. -/
def checkAndNotifyPrompt (st : SuppressionState) (nowMs : Int)
    (currentMinutes : Nat) (frequency : Frequency) (randAbove : Bool)
    (pick : Nat) (ctx : ReminderContext) :
    Option String × ReminderContext :=
  if isPausedCheck st.paused st.snoozedUntil nowMs then (none, ctx)
  else if isDoNotDisturbTime st.dndEnabled st.dndRanges currentMinutes then
    (none, ctx)
  else
    let ctx' :=
      { ctx with consecutiveWorkMinutes := ctx.consecutiveWorkMinutes + 1 }
    if shouldShowReminder frequency randAbove nowMs ctx' then
      (some (getReminderMessage
        (reminderSeverity ctx'.consecutiveWorkMinutes) pick), ctx')
    else (none, ctx')

/-- The two evaluation paths into the reminder service. -/
inductive ReminderEvent
  | tick
  | commitNotify (commitMessage : String)
deriving DecidableEq, Repr

/-- The prompt the reminder service shows for an event: the periodic
tick goes through `checkAndNotify`, while a commit notification goes
through `notifyCommit`, whose delayed `showPostCommitReminder` displays
its prompt without consulting any suppression state. -/
def reminderPrompt (event : ReminderEvent) (st : SuppressionState)
    (nowMs : Int) (currentMinutes : Nat) (frequency : Frequency)
    (randAbove : Bool) (pick : Nat) (ctx : ReminderContext) :
    Option String :=
  match event with
  | .tick =>
      (checkAndNotifyPrompt st nowMs currentMinutes frequency randAbove
        pick ctx).1
  | .commitNotify commitMessage =>
      some (showPostCommitReminderPrompt commitMessage)

/-! ## Exercise sequencer (ExerciseService) -/

/-- Source function `calculateBasePoints` (HealthTracker). -/
def calculateBasePoints (duration : Nat) : Nat :=
  if duration ≤ 60 then 5
  else if duration ≤ 180 then 15
  else 30

/-- The step loop of `executeExercise`: step `i` resolves true on skip
or countdown expiry and false on "Stop Exercise" (`outcomes i`); the
first false aborts the rest of the sequence. -/
def runSteps (outcomes : Nat → Bool) :
    List ExerciseStep → Nat → Bool
  | [], _ => true
  | _ :: rest, i => if outcomes i then runSteps outcomes rest (i + 1) else false

/-- Whether an `executeExercise` session reaches
`handleExerciseCompletion`: the user pressed Begin and every step
resolved without a stop. -/
def executeExerciseCompletes (exercise : Exercise) (confirmBegin : Bool)
    (outcomes : Nat → Bool) : Bool :=
  confirmBegin && runSteps outcomes exercise.steps 0

/-- The `Activity` that `handleExerciseCompletion` hands to
`recordActivity` after the latter fills in defaults: the duration is the
exercise's declared catalog duration, the start/complete timestamps are
the session's wall-clock times, and the id and creation time are
generated at record time. -/
def handleCompletionActivity (exercise : Exercise) (genId : String)
    (startTime endTime recordTime : Int) : Activity :=
  { id := genId,
    exerciseId := exercise.id,
    exerciseName := exercise.name,
    duration := exercise.duration,
    caloriesBurned := exercise.caloriesBurn,
    pointsEarned := calculateBasePoints exercise.duration,
    startedAt := startTime,
    completedAt := endTime,
    createdAt := recordTime }

/-- One full exercise session's effect on the activity log and the
gamification state: on completion the activity is recorded and
`awardExerciseCompletion` runs; on abort (cancel at confirmation or a
stop at any step) both are left untouched. -/
def exerciseSession (exercise : Exercise) (confirmBegin : Bool)
    (outcomes : Nat → Bool) (genId : String)
    (startTime endTime recordTime : Int) (log : List Activity)
    (gamificationEnabled : Bool) (hour : Nat) (g : GamState) :
    List Activity × GamState :=
  if executeExerciseCompletes exercise confirmBegin outcomes then
    (saveActivity log
      (handleCompletionActivity exercise genId startTime endTime recordTime),
      (awardExerciseCompletion gamificationEnabled hour exercise g).1)
  else (log, g)

/-! ## Catalog fixtures and defaults used by concrete instances -/

/-- The default stats record created on first use (`loadUserStats`). -/
def defaultUserStats : UserStats :=
  { healthScore := 100, streak := 0, longestStreak := 0, totalExercises := 0,
    totalExerciseTime := 0, totalPoints := 0, availablePoints := 0,
    level := 1, xp := 0 }

/-- The task list `generateDailyQuest` creates each day. -/
def generateDailyQuestTasks : List QuestTask :=
  [ { id := "task_breaks", description := "Complete 8 micro-breaks",
      target := 8, current := 0, xp := 40, completed := false },
    { id := "task_5min", description := "Complete a 5-minute exercise",
      target := 1, current := 0, xp := 30, completed := false },
    { id := "task_eyes", description := "Do 3 eye exercises",
      target := 3, current := 0, xp := 20, completed := false },
    { id := "task_variety", description := "Try 3 different exercises",
      target := 3, current := 0, xp := 50, completed := false } ]

/-- A quest as `generateDailyQuest` builds it (the id embeds the date). -/
def generateDailyQuest (id : String) : DailyQuest :=
  { id := id, tasks := generateDailyQuestTasks,
    totalXP := (generateDailyQuestTasks.map (·.xp)).sum, completed := false }

/-- The `eye_exercise` catalog entry (`src/constants/exercises`). -/
def eyeExercise : Exercise :=
  { id := "eye_exercise", name := "20-20-20 Eye Exercise",
    category := .cat1min, duration := 60,
    steps :=
      [ { instruction := "Look at an object 20 feet (6 meters) away", duration := 20 },
        { instruction := "Keep looking at the distant object", duration := 20 },
        { instruction := "Return to your screen", duration := 20 } ],
    caloriesBurn := 2 }

/-- The `walking_break` catalog entry (`src/constants/exercises`). -/
def walkingBreak : Exercise :=
  { id := "walking_break", name := "Walking Break",
    category := .cat5min, duration := 300,
    steps :=
      [ { instruction := "Stand up from your desk", duration := 10 },
        { instruction := "Walk around your office or outside", duration := 240 },
        { instruction := "Take deep breaths while walking", duration := 30 },
        { instruction := "Return to your desk feeling refreshed", duration := 20 } ],
    caloriesBurn := 25 }

/-- A single recorded one-minute activity finishing one minute into the
day, used as a concrete daily activity set. -/
def oneMinuteActivity : Activity :=
  { id := "activity_1", exerciseId := "eye_exercise",
    exerciseName := "20-20-20 Eye Exercise", duration := 60,
    caloriesBurned := 2, pointsEarned := 5, startedAt := 0,
    completedAt := 60000, createdAt := 60000 }

/-! ## C7 — empty day evaluates to score 0 -/

/-- C7: with zero activities recorded today the sitting gap defaults to
480 minutes and `calculateHealthScore` returns exactly 0: the break
ratio 0/8 costs 40, the saturated sitting gap costs 30, zero exercise
minutes cost 15 and zero distinct exercises cost 15, so
100 − 40 − 30 − 15 − 15 = 0. -/
theorem healthScore_empty_day (dayStart now : Int) :
    calculateLongestSittingStreak [] dayStart now = 480 ∧
    calculateHealthScore [] dayStart now = 0 := by
  refine ⟨rfl, ?_⟩
  norm_num [calculateHealthScore, healthPenaltiesScore,
    calculateLongestSittingStreak, List.dedup]

/-! ## C8 — level threshold lookup boundaries -/

/-- C8: the level lookup is inclusive at the threshold: 0 XP and 99 XP
give level 1 while 100 XP gives level 2 under `findCurrentLevel`'s
descending scan of the `LEVELS` table. -/
theorem findCurrentLevel_boundaries :
    findCurrentLevel 0 = 1 ∧ findCurrentLevel 99 = 1 ∧
    findCurrentLevel 100 = 2 := by decide

/-! ## C9 — activity log cap -/

/-- C9: saving onto a 1000-entry log drops exactly the oldest entry and
appends the new one at the tail, keeping the length at 1000; saving onto
a shorter log is a pure append. -/
theorem saveActivity_spec (log : List Activity) (a : Activity) :
    (log.length = 1000 →
      saveActivity log a = log.drop 1 ++ [a] ∧
      (saveActivity log a).length = 1000) ∧
    (log.length < 1000 → saveActivity log a = log ++ [a]) := by
  constructor
  · intro h
    have hdrop : (log ++ [a]).drop 1 = log.drop 1 ++ [a] := by
      cases log with
      | nil => simp at h
      | cons x xs => simp
    have hlen : (log ++ [a]).length = 1001 := by
      rw [List.length_append, h]
      rfl
    have hcond : (log ++ [a]).length > 1000 := by
      rw [hlen]
      norm_num
    have harg : (log ++ [a]).length - 1000 = 1 := by
      rw [hlen]
    have hmain : saveActivity log a = log.drop 1 ++ [a] := by
      simp only [saveActivity, if_pos hcond, harg, hdrop]
    refine ⟨hmain, ?_⟩
    rw [hmain, List.length_append, List.length_drop, h]
    rfl
  · intro h
    have hcond : ¬ (log ++ [a]).length > 1000 := by
      rw [List.length_append]
      simp only [List.length_singleton]
      omega
    simp only [saveActivity, if_neg hcond]

/-- Witness for C9: a concrete 1000-entry log and a concrete shorter log
behave as `saveActivity_spec` states. -/
theorem saveActivity_spec_witness :
    (List.replicate 1000 oneMinuteActivity).length = 1000 ∧
    saveActivity (List.replicate 1000 oneMinuteActivity) oneMinuteActivity =
      (List.replicate 1000 oneMinuteActivity).drop 1 ++ [oneMinuteActivity] ∧
    ([] : List Activity).length < 1000 ∧
    saveActivity [] oneMinuteActivity = [oneMinuteActivity] := by
  have hlen : (List.replicate 1000 oneMinuteActivity).length = 1000 :=
    List.length_replicate 1000 oneMinuteActivity
  have h2 :=
    ((saveActivity_spec (List.replicate 1000 oneMinuteActivity)
      oneMinuteActivity).1 hlen).1
  have h3 : ([] : List Activity).length < 1000 := by norm_num
  have h4 := (saveActivity_spec [] oneMinuteActivity).2 h3
  exact ⟨hlen, h2, h3, by rw [h4]; rfl⟩

/-! ## C10 — midnight-crossing DND ranges never match -/

/-- C10: a Do-Not-Disturb range whose start minute-of-day is strictly
greater than its end minute-of-day (crossing midnight) satisfies the
containment test for no current time, so such a window never suppresses
reminders. -/
theorem dnd_midnight_crossing_never_matches (r : DndRange)
    (currentMinutes : Nat)
    (h : r.endHour * 60 + r.endMin < r.startHour * 60 + r.startMin) :
    isDoNotDisturbTime true [r] currentMinutes = false := by
  simp only [isDoNotDisturbTime, Bool.not_true, Bool.false_eq_true, if_false,
    List.any_cons, List.any_nil, Bool.or_false, Bool.and_eq_false_iff,
    decide_eq_false_iff_not, not_le, ge_iff_le]
  omega

/-- Witness for C10: the range 22:00–06:00 does not match 23:00. -/
theorem dnd_midnight_crossing_never_matches_witness :
    (6 * 60 + 0 < 22 * 60 + 0) ∧
    isDoNotDisturbTime true [⟨22, 0, 6, 0⟩] 1380 = false :=
  ⟨by decide, dnd_midnight_crossing_never_matches ⟨22, 0, 6, 0⟩ 1380 (by decide)⟩

/-! ## C4 — streak update across two same-day activities -/

/-- C4 counterexample: with streak already incremented to 1 for today's
first activity and an activity also existing yesterday, running the
streak update again the same day increments the streak a second time
(to 2), so the update is not idempotent for every value of the
yesterday input. -/
theorem updateStreak_second_same_day_increments :
    (updateStreak true true { streak := 1, longestStreak := 1 }).streak = 2 ∧
    (2 : Nat) ≠ 1 := by decide

/-- C4 amended: the same-day re-run leaves the streak unchanged exactly
when no activity exists yesterday: with a positive streak,
`updateStreak` with today = true and yesterday = false is the identity
on the streak value. -/
theorem updateStreak_idempotent_no_yesterday (s : StreakState)
    (h : 0 < s.streak) :
    (updateStreak true false s).streak = s.streak := by
  have hne : ¬ s.streak = 0 := by omega
  simp [updateStreak, hne]

/-- Witness for the amended C4 at the state reached after today's first
activity. -/
theorem updateStreak_idempotent_no_yesterday_witness :
    0 < (1 : Nat) ∧
    (updateStreak true false { streak := 1, longestStreak := 1 }).streak = 1 :=
  ⟨by decide,
    updateStreak_idempotent_no_yesterday { streak := 1, longestStreak := 1 }
      (by decide)⟩

/-! ## C1 — health score range and its inputs -/

/-- C1 counterexample: the same single-activity day scores 30 when
evaluated 31 minutes into the day but 0 when evaluated 200 minutes into
the day, because the sitting gap from the last activity to the moment of
evaluation enters the score; the score is therefore not a function of
the day's activities and the 480-minute assumption alone. -/
theorem healthScore_changes_with_evaluation_time :
    calculateHealthScore [oneMinuteActivity] 0 (31 * 60000) = 30 ∧
    calculateHealthScore [oneMinuteActivity] 0 (200 * 60000) = 0 ∧
    (30 : ℤ) ≠ 0 := by
  refine ⟨?_, ?_, by decide⟩ <;>
    norm_num [oneMinuteActivity, calculateHealthScore, healthPenaltiesScore,
      calculateLongestSittingStreak, sittingScan, sortByCompleted,
      insertByCompleted, round_eq, List.dedup]

/-- C1 amended: for every activity set and every evaluation time the
health score is an integer in [0, 100]; it is a deterministic function
of the day's activities, the fixed 480-minute assumption and the
evaluation time (day start and now), not of the activities alone. -/
theorem calculateHealthScore_range (today : List Activity)
    (dayStart now : Int) :
    0 ≤ calculateHealthScore today dayStart now ∧
    calculateHealthScore today dayStart now ≤ 100 := by
  unfold calculateHealthScore
  exact ⟨le_max_left 0 _, max_le (by norm_num) (min_le_left 100 _)⟩

/-! ## C2 — the smart-mode firing condition -/

/-- C2 counterexample, two parts. First: at 70 consecutive work minutes
with 0 breaks today, no suppression active, and a commit exactly 3
minutes old (inside the claimed [1,5)-minute window), the claim demands
a fire, but the code takes the `≥ 45` branch (which has no upper bound
at 60), returns the failed 50% draw, and never reaches the commit
check. Second: at 10 consecutive minutes with a commit exactly 1 minute
old — inside the claimed closed-at-1 window [1,5) — the code's strict
`> 1 minute` comparison yields no fire either. -/
theorem shouldShowReminder_commit_window_shadowed :
    (shouldShowReminder .smart false 180000
      { codeInputFrequency := 0, lastCommitTime := some 0,
        isDebugging := false, consecutiveWorkMinutes := 70,
        todayBreakCount := 0 } = false ∧
     (1 * 60 * 1000 < (180000 : Int) - 0 ∧
       (180000 : Int) - 0 < 5 * 60 * 1000) ∧
     ¬ (90 ≤ (70 : Nat)) ∧ ¬ (45 ≤ (70 : Nat) ∧ (70 : Nat) < 60)) ∧
    (shouldShowReminder .smart false 60000
      { codeInputFrequency := 0, lastCommitTime := some 0,
        isDebugging := false, consecutiveWorkMinutes := 10,
        todayBreakCount := 0 } = false ∧
     (1 * 60 * 1000 ≤ (60000 : Int) - 0 ∧
       (60000 : Int) - 0 < 5 * 60 * 1000)) := by decide

/-- C2 amended: with no suppression active, smart mode fires exactly
when 90 consecutive minutes are reached, or when at least 45 consecutive
minutes and fewer than 8 breaks today make it return the 50% draw, or —
only when that 45-minute branch is not taken — when a commit happened
strictly between 1 and 5 minutes ago; the light branch has no upper
bound at 60 and shadows the commit check. Fixed mode fires exactly at or
above the configured interval, and 120 consecutive minutes give strong
severity. -/
theorem shouldShowReminder_spec (randAbove : Bool) (nowMs : Int)
    (ctx : ReminderContext) (hdbg : ctx.isDebugging = false)
    (hfreq : ctx.codeInputFrequency ≤ 50) :
    (shouldShowReminder .smart randAbove nowMs ctx = true ↔
      (90 ≤ ctx.consecutiveWorkMinutes ∨
       (45 ≤ ctx.consecutiveWorkMinutes ∧ ctx.todayBreakCount < 8 ∧
         randAbove = true) ∨
       ((ctx.consecutiveWorkMinutes < 45 ∨ 8 ≤ ctx.todayBreakCount) ∧
         ∃ t, ctx.lastCommitTime = some t ∧
           1 * 60 * 1000 < nowMs - t ∧ nowMs - t < 5 * 60 * 1000))) ∧
    (∀ m, shouldShowReminder (.fixedMinutes m) randAbove nowMs ctx = true ↔
      m ≤ ctx.consecutiveWorkMinutes) ∧
    (120 ≤ ctx.consecutiveWorkMinutes →
      reminderSeverity ctx.consecutiveWorkMinutes = .strong) := by
  have hf : ¬ ctx.codeInputFrequency > 50 := by omega
  refine ⟨?_, ?_, ?_⟩
  · unfold shouldShowReminder
    rw [hdbg]
    simp only [Bool.false_eq_true, if_false, if_neg hf]
    split_ifs with h120 h90 h45
    · simp only [true_iff]
      exact Or.inl (by omega)
    · simp only [true_iff]
      exact Or.inl (by omega)
    · constructor
      · intro hr
        exact Or.inr (Or.inl ⟨h45.1, h45.2, hr⟩)
      · rintro (h | ⟨_, _, hr⟩ | ⟨hcase, _⟩)
        · exact absurd h h90
        · exact hr
        · rcases h45 with ⟨ha, hb⟩
          rcases hcase with hc | hc <;> omega
    · have hside : ctx.consecutiveWorkMinutes < 45 ∨ 8 ≤ ctx.todayBreakCount := by
        by_contra hn
        push_neg at hn
        exact h45 ⟨by omega, by omega⟩
      cases hcommit : ctx.lastCommitTime with
      | none =>
          simp only [Bool.false_eq_true, false_iff]
          rintro (h | ⟨ha, hb, _⟩ | ⟨_, t, ht, _⟩)
          · exact h90 h
          · exact h45 ⟨ha, hb⟩
          · exact Option.noConfusion ht
      | some t =>
          simp only [Bool.and_eq_true, decide_eq_true_eq]
          constructor
          · rintro ⟨hlt, hgt⟩
            exact Or.inr (Or.inr ⟨hside, t, rfl, by omega, by omega⟩)
          · rintro (h | ⟨ha, hb, _⟩ | ⟨_, t', ht', h1, h5⟩)
            · exact absurd h h90
            · exact absurd ⟨ha, hb⟩ h45
            · injection ht' with hte
              subst hte
              exact ⟨by omega, by omega⟩
  · intro m
    unfold shouldShowReminder
    rw [hdbg]
    simp only [Bool.false_eq_true, if_false, if_neg hf, decide_eq_true_eq,
      ge_iff_le]
  · intro h
    unfold reminderSeverity
    rw [if_pos (by omega : ctx.consecutiveWorkMinutes ≥ 120)]

/-- Witness for the amended C2: at 100 consecutive minutes with no
suppression, smart mode fires. -/
theorem shouldShowReminder_spec_witness :
    (({ codeInputFrequency := 0, lastCommitTime := none, isDebugging := false,
        consecutiveWorkMinutes := 100, todayBreakCount := 0 } :
          ReminderContext).isDebugging = false) ∧
    shouldShowReminder .smart true 0
      { codeInputFrequency := 0, lastCommitTime := none, isDebugging := false,
        consecutiveWorkMinutes := 100, todayBreakCount := 0 } = true :=
  ⟨rfl,
    (shouldShowReminder_spec true 0
      { codeInputFrequency := 0, lastCommitTime := none, isDebugging := false,
        consecutiveWorkMinutes := 100, todayBreakCount := 0 } rfl
      (by decide)).1.mpr (Or.inl (by decide))⟩

/-! ## C3 — suppression conditions versus the two evaluation paths -/

/-- A debugging session forces `shouldShowReminder` to false. -/
theorem shouldShowReminder_of_debugging (frequency : Frequency)
    (randAbove : Bool) (nowMs : Int) (ctx : ReminderContext)
    (h : ctx.isDebugging = true) :
    shouldShowReminder frequency randAbove nowMs ctx = false := by
  unfold shouldShowReminder
  rw [h]
  simp

/-- High input intensity forces `shouldShowReminder` to false. -/
theorem shouldShowReminder_of_intensity (frequency : Frequency)
    (randAbove : Bool) (nowMs : Int) (ctx : ReminderContext)
    (h : 50 < ctx.codeInputFrequency) :
    shouldShowReminder frequency randAbove nowMs ctx = false := by
  unfold shouldShowReminder
  by_cases h1 : ctx.isDebugging = true
  · rw [if_pos h1]
  · rw [if_neg h1, if_pos h]

/-- C3 counterexample: with every suppression condition active at once —
paused, a DND window covering the whole day, a debug session, and input
intensity 100 — the commit-notification path still shows its post-commit
prompt: the claim that suppression prevents a reminder on every path is
false on the `notifyCommit` path. -/
theorem commit_path_ignores_suppression :
    reminderPrompt (.commitNotify "quick fix")
      { paused := true, snoozedUntil := none, dndEnabled := true,
        dndRanges := [⟨0, 0, 23, 59⟩] } 0 720 .smart false 0
      { codeInputFrequency := 100, lastCommitTime := some 0,
        isDebugging := true, consecutiveWorkMinutes := 0,
        todayBreakCount := 0 } =
      some "😤 That was tough! Clear your head with a quick walk?" ∧
    isPausedCheck true none 0 = true ∧
    isDoNotDisturbTime true [⟨0, 0, 23, 59⟩] 720 = true := by decide

/-- C3 amended: on the periodic tick path (`checkAndNotify`), any one of
the suppression conditions — paused, an active snooze window, a matching
DND window, a debug session, or input intensity above 50 — prevents any
reminder from being shown, regardless of the consecutive-work-minutes
value; the post-commit notification path is not covered by these
checks. -/
theorem tick_path_suppression (st : SuppressionState) (nowMs : Int)
    (currentMinutes : Nat) (frequency : Frequency) (randAbove : Bool)
    (pick : Nat) (ctx : ReminderContext)
    (h : st.paused = true ∨
         (∃ t, st.snoozedUntil = some t ∧ nowMs < t) ∨
         isDoNotDisturbTime st.dndEnabled st.dndRanges currentMinutes = true ∨
         ctx.isDebugging = true ∨
         50 < ctx.codeInputFrequency) :
    reminderPrompt .tick st nowMs currentMinutes frequency randAbove pick
      ctx = none := by
  unfold reminderPrompt checkAndNotifyPrompt
  rcases h with hp | ⟨t, ht, hlt⟩ | hdnd | hdbg | hint
  · rw [if_pos]
    simp [isPausedCheck, hp]
  · rw [if_pos]
    simp [isPausedCheck, ht, hlt]
  · by_cases hpause : isPausedCheck st.paused st.snoozedUntil nowMs = true
    · rw [if_pos hpause]
    · rw [if_neg hpause, if_pos hdnd]
  · by_cases hpause : isPausedCheck st.paused st.snoozedUntil nowMs = true
    · rw [if_pos hpause]
    · by_cases hdnd :
        isDoNotDisturbTime st.dndEnabled st.dndRanges currentMinutes = true
      · rw [if_neg hpause, if_pos hdnd]
      · rw [if_neg hpause, if_neg hdnd]
        have hrun : shouldShowReminder frequency randAbove nowMs
            { ctx with
                consecutiveWorkMinutes := ctx.consecutiveWorkMinutes + 1 } =
              false :=
          shouldShowReminder_of_debugging frequency randAbove nowMs _ hdbg
        simp [hrun]
  · by_cases hpause : isPausedCheck st.paused st.snoozedUntil nowMs = true
    · rw [if_pos hpause]
    · by_cases hdnd :
        isDoNotDisturbTime st.dndEnabled st.dndRanges currentMinutes = true
      · rw [if_neg hpause, if_pos hdnd]
      · rw [if_neg hpause, if_neg hdnd]
        have hrun : shouldShowReminder frequency randAbove nowMs
            { ctx with
                consecutiveWorkMinutes := ctx.consecutiveWorkMinutes + 1 } =
              false :=
          shouldShowReminder_of_intensity frequency randAbove nowMs _ hint
        simp [hrun]

/-- Witness for the amended C3: pausing alone suppresses the tick even
at 200 consecutive work minutes. -/
theorem tick_path_suppression_witness :
    (({ paused := true, snoozedUntil := none, dndEnabled := false,
        dndRanges := [] } : SuppressionState).paused = true) ∧
    reminderPrompt .tick
      { paused := true, snoozedUntil := none, dndEnabled := false,
        dndRanges := [] } 0 720 .smart true 0
      { codeInputFrequency := 0, lastCommitTime := none,
        isDebugging := false, consecutiveWorkMinutes := 200,
        todayBreakCount := 0 } = none :=
  ⟨rfl, tick_path_suppression _ 0 720 .smart true 0 _ (Or.inl rfl)⟩

/-! ## C5 — stored level versus stored XP after an award -/

/-- The achievement loop never touches the level field. -/
theorem checkAchievementsAux_level (hour : Nat) :
    ∀ (catalog : List Achievement) (s : UserStats) (unlocked : List String)
      (acc : List Achievement),
      (checkAchievementsAux hour catalog s unlocked acc).1.level = s.level := by
  intro catalog
  induction catalog with
  | nil => intro s unlocked acc; rfl
  | cons a rest ih =>
      intro s unlocked acc
      unfold checkAchievementsAux
      split_ifs with h1 h2
      · exact ih s unlocked acc
      · rw [ih]
      · exact ih s unlocked acc

/-- Specialization to `checkAchievements`. -/
theorem checkAchievements_level (hour : Nat) (unlocked : List String)
    (s : UserStats) :
    (checkAchievements hour unlocked s).1.level = s.level :=
  checkAchievementsAux_level hour ACHIEVEMENTS s unlocked []

/-- A single quest-task update never touches the level field. -/
theorem updateQuestTask_level (exercise : Exercise) (t : QuestTask)
    (s : UserStats) :
    (updateQuestTask exercise t s).2.level = s.level := by
  unfold updateQuestTask
  dsimp only
  split_ifs <;> rfl

/-- The quest-task loop never touches the level field. -/
theorem updateQuestTasks_level (exercise : Exercise) :
    ∀ (tasks : List QuestTask) (s : UserStats),
      (updateQuestTasks exercise tasks s).2.level = s.level := by
  intro tasks
  induction tasks with
  | nil => intro s; rfl
  | cons t rest ih =>
      intro s
      unfold updateQuestTasks
      rw [ih]
      exact updateQuestTask_level exercise t s

/-- The whole quest update never touches the level field. -/
theorem updateDailyQuestProgress_level (exercise : Exercise)
    (q : DailyQuest) (s : UserStats) :
    (updateDailyQuestProgress exercise q s).2.level = s.level := by
  unfold updateDailyQuestProgress
  dsimp only
  split_ifs
  · exact updateQuestTasks_level exercise q.tasks s
  · exact updateQuestTasks_level exercise q.tasks s

/-- The level-up check stores exactly the maximum of the old level and
the recomputed level. -/
theorem checkAndHandleLevelUp_level (s : UserStats) :
    (checkAndHandleLevelUp s).1.level =
      max s.level (findCurrentLevel s.xp) := by
  unfold checkAndHandleLevelUp
  dsimp only
  split_ifs with h
  · show findCurrentLevel s.xp = _
    omega
  · show s.level = _
    omega

/-- C5 counterexample: starting from the default stats with a 7-day
streak and a fresh daily quest, completing the `walking_break` exercise
at noon ends with XP 162 (32 from the award, 100 from the `streak_7`
achievement, 30 from the completed 5-minute quest task) but stored level
1, while the threshold lookup on the final XP gives level 2 — so after
the call the stored level does not equal `findCurrentLevel` of the final
XP. -/
theorem award_level_lags_achievement_xp :
    ((awardExerciseCompletion false 12 walkingBreak
        { stats := { defaultUserStats with streak := 7, longestStreak := 7 },
          unlockedAchievements := [],
          dailyQuest := generateDailyQuest "quest_2025-10-11" }).1).stats.xp
      = 162 ∧
    ((awardExerciseCompletion false 12 walkingBreak
        { stats := { defaultUserStats with streak := 7, longestStreak := 7 },
          unlockedAchievements := [],
          dailyQuest := generateDailyQuest "quest_2025-10-11" }).1).stats.level
      = 1 ∧
    findCurrentLevel 162 = 2 := by decide

/-- C5 amended: after `awardExerciseCompletion` the stored level equals
the maximum of the previous level and the threshold lookup applied to
the XP as it stands right after the base and bonus XP are added — i.e.
before achievement rewards and daily-quest XP land — so it can lag
behind `findCurrentLevel` of the final XP within the same call. -/
theorem awardExerciseCompletion_level_eq (gamificationEnabled : Bool)
    (hour : Nat) (exercise : Exercise) (g : GamState) :
    ((awardExerciseCompletion gamificationEnabled hour exercise g).1).stats.level
      = max g.stats.level
          (findCurrentLevel
            (g.stats.xp +
              (calculateExerciseXP exercise + calculateBonusXP hour g.stats))) := by
  unfold awardExerciseCompletion
  dsimp only
  rw [updateDailyQuestProgress_level, checkAchievements_level,
    checkAndHandleLevelUp_level]

/-! ## C6 — sequencer abort versus completion -/

/-- A stop among the remaining steps makes the step loop report
failure. -/
theorem runSteps_eq_false (outcomes : Nat → Bool) :
    ∀ (steps : List ExerciseStep) (start : Nat),
      (∃ j, j < steps.length ∧ outcomes (start + j) = false) →
      runSteps outcomes steps start = false := by
  intro steps
  induction steps with
  | nil =>
      rintro start ⟨j, hj, _⟩
      simp at hj
  | cons st rest ih =>
      rintro start ⟨j, hj, hstop⟩
      unfold runSteps
      by_cases h0 : outcomes start = true
      · rw [if_pos h0]
        apply ih
        cases j with
        | zero =>
            rw [Nat.add_zero] at hstop
            rw [h0] at hstop
            exact absurd hstop (by decide)
        | succ k =>
            refine ⟨k, by simpa using hj, ?_⟩
            rw [show start + 1 + k = start + (k + 1) by omega]
            exact hstop
      · rw [if_neg h0]

/-- All steps resolving without a stop make the step loop succeed. -/
theorem runSteps_eq_true (outcomes : Nat → Bool) :
    ∀ (steps : List ExerciseStep) (start : Nat),
      (∀ j, j < steps.length → outcomes (start + j) = true) →
      runSteps outcomes steps start = true := by
  intro steps
  induction steps with
  | nil => intro start _; rfl
  | cons st rest ih =>
      intro start hall
      unfold runSteps
      rw [if_pos (by simpa using hall 0 (by simp))]
      apply ih
      intro j hj
      rw [show start + 1 + j = start + (j + 1) by omega]
      exact hall (j + 1) (by simpa using hj)

/-- C6: stopping at any step (in particular before the last) leaves the
activity log and the gamification state untouched — no activity, no XP;
completing every step records through `saveActivity` exactly the one
activity built by the completion handler, whose duration field is the
exercise's declared catalog duration whatever the wall-clock start and
end times were, and awards XP through `awardExerciseCompletion`. -/
theorem exerciseSession_spec (exercise : Exercise) (confirmBegin : Bool)
    (outcomes : Nat → Bool) (genId : String)
    (startTime endTime recordTime : Int) (log : List Activity)
    (gamificationEnabled : Bool) (hour : Nat) (g : GamState) :
    ((∃ j, j < exercise.steps.length ∧ outcomes j = false) →
      exerciseSession exercise confirmBegin outcomes genId startTime endTime
        recordTime log gamificationEnabled hour g = (log, g)) ∧
    (confirmBegin = true →
      (∀ j, j < exercise.steps.length → outcomes j = true) →
      exerciseSession exercise confirmBegin outcomes genId startTime endTime
          recordTime log gamificationEnabled hour g =
        (saveActivity log
          (handleCompletionActivity exercise genId startTime endTime recordTime),
         (awardExerciseCompletion gamificationEnabled hour exercise g).1) ∧
      (handleCompletionActivity exercise genId startTime endTime
        recordTime).duration = exercise.duration) := by
  constructor
  · rintro ⟨j, hj, hstop⟩
    have hrun : runSteps outcomes exercise.steps 0 = false :=
      runSteps_eq_false outcomes exercise.steps 0 ⟨j, hj, by simpa using hstop⟩
    unfold exerciseSession executeExerciseCompletes
    rw [hrun]
    simp
  · intro hconfirm hall
    have hrun : runSteps outcomes exercise.steps 0 = true :=
      runSteps_eq_true outcomes exercise.steps 0
        (fun j hj => by simpa using hall j hj)
    unfold exerciseSession executeExerciseCompletes
    rw [hconfirm, hrun]
    exact ⟨rfl, rfl⟩

/-- Witness for C6: on the catalog eye exercise, stopping at the first
step changes nothing, while completing all three steps appends exactly
one activity whose duration is the declared 60 seconds even though the
supplied wall-clock interval is 99 seconds. -/
theorem exerciseSession_spec_witness :
    exerciseSession eyeExercise true (fun _ => false) "activity_1" 0 99000
      99000 []
      false 12
      { stats := defaultUserStats, unlockedAchievements := [],
        dailyQuest := generateDailyQuest "quest_2025-10-11" } =
      ([],
        { stats := defaultUserStats, unlockedAchievements := [],
          dailyQuest := generateDailyQuest "quest_2025-10-11" }) ∧
    exerciseSession eyeExercise true (fun _ => true) "activity_1" 0 99000
        99000 []
        false 12
        { stats := defaultUserStats, unlockedAchievements := [],
          dailyQuest := generateDailyQuest "quest_2025-10-11" } =
      (saveActivity []
        (handleCompletionActivity eyeExercise "activity_1" 0 99000 99000),
       (awardExerciseCompletion false 12 eyeExercise
        { stats := defaultUserStats, unlockedAchievements := [],
          dailyQuest := generateDailyQuest "quest_2025-10-11" }).1) ∧
    (handleCompletionActivity eyeExercise "activity_1" 0 99000
      99000).duration = eyeExercise.duration :=
  ⟨(exerciseSession_spec eyeExercise true (fun _ => false) "activity_1" 0
      99000 99000 [] false 12
      { stats := defaultUserStats, unlockedAchievements := [],
        dailyQuest := generateDailyQuest "quest_2025-10-11" }).1
      ⟨0, by decide, rfl⟩,
    (exerciseSession_spec eyeExercise true (fun _ => true) "activity_1" 0
      99000 99000 [] false 12
      { stats := defaultUserStats, unlockedAchievements := [],
        dailyQuest := generateDailyQuest "quest_2025-10-11" }).2 rfl
      (fun _ _ => rfl)⟩

end CodeFit
